import Mathlib

/-!
Shallow embedding of the filebrowser resource and share HTTP handlers
(src/http/share.go and the resource handler file), together with the
collaborator interfaces they consume (share store, scoped filesystem),
and theorems about the behaviour of those handlers.

Conventions:
* Go `time.Time` and `time.Duration` are modelled as `Int` nanoseconds.
* Machine `int64` arithmetic that may overflow is made explicit with
  `i64wrap`.
* Fallible collaborator calls are inputs of the handler functions
  (e.g. the result of `Store.Share.GetByPath` is an `Except` argument),
  so a handler is a pure function of the request and of the collaborator
  answers it consumes.
* The user-resolution step (`getUser`) is assumed to have succeeded: every
  handler takes the resolved `User` as an argument, as the claims under
  study all concern requests by an authenticated user.
-/

/-! ### String helpers (Go `strings.TrimPrefix` / `strings.TrimSuffix`) -/

/-- Is `p` a prefix of `s` (on character lists)? -/
def hasPfx : List Char → List Char → Bool
  | [], _ => true
  | _ :: _, [] => false
  | a :: ps, b :: ss => a = b && hasPfx ps ss

/-- Go `strings.TrimPrefix s p`: remove one leading occurrence of `p`, if present. -/
def trimPfx (s p : String) : String :=
  if hasPfx p.data s.data then ⟨s.data.drop p.data.length⟩ else s

/-- Go `strings.HasSuffix s p` (on the underlying character lists). -/
def hasSfx (s p : String) : Bool :=
  p.data.isSuffixOf s.data

/-- Go `strings.TrimSuffix s p`: remove one trailing occurrence of `p`, if present. -/
def trimSfx (s p : String) : String :=
  if hasSfx s p then ⟨s.data.take (s.data.length - p.data.length)⟩ else s

/-! ### Machine integers -/

/-- Interpret an unbounded integer as a wrapped signed 64-bit value
(Go `int64` arithmetic wraps on overflow). -/
def i64wrap (x : Int) : Int :=
  (x + 2 ^ 63) % 2 ^ 64 - 2 ^ 63

/-- Maximal signed 64-bit value. -/
def i64max : Int := 2 ^ 63 - 1

/-- Go `strconv.Atoi`: optional sign, one or more ASCII digits, rejected on
any other character, on the empty string and on values outside `int64`. -/
def goDigits : List Char → Option Nat
  | [] => none
  | [c] => if c.isDigit then some (c.toNat - 48) else none
  | c :: cs =>
    if c.isDigit then
      (goDigits cs).map (fun n => (c.toNat - 48) * 10 ^ cs.length + n)
    else none

/-- Go `strconv.Atoi` on a string, producing an `Int` or failing. -/
def goAtoi (s : String) : Option Int :=
  match s.data with
  | [] => none
  | c :: cs =>
    if c = Char.ofNat 43 then
      (goDigits cs).bind (fun n => if (n : Int) ≤ i64max then some (n : Int) else none)
    else if c = Char.ofNat 45 then
      (goDigits cs).bind (fun n => if (n : Int) ≤ 2 ^ 63 then some (-(n : Int)) else none)
    else
      (goDigits s.data).bind (fun n => if (n : Int) ≤ i64max then some (n : Int) else none)

/-! ### Data model -/

/-- `types.Permissions`: per-user boolean capability flags. -/
structure Permissions where
  admin : Bool
  execute : Bool
  create : Bool
  rename : Bool
  modify : Bool
  del : Bool
  share : Bool
  download : Bool
deriving DecidableEq

/-- `types.User`, restricted to the fields the handlers consume.
`allowed` models `User.IsAllowed` (the rule evaluation lives outside the
sources under study, so reachability is an abstract predicate of the user). -/
structure User where
  scope : String
  perm : Permissions
  allowed : String → Bool

/-- `types.ShareLink`: a share token record. `expireDate` is in
nanoseconds, `0` standing for Go's zero `time.Time` value. -/
structure ShareLink where
  path : String
  hash : String
  expires : Bool
  expireDate : Int
deriving DecidableEq

/-- Errors from the share store collaborator: `types.ErrNotExist` or any
other storage failure. -/
inductive StoreErr
  | notExist
  | storage
deriving DecidableEq

/-! ### Share handlers (src/http/share.go) -/

/-- One iteration state of the expiry sweep in `shareGetHandler`:
`backing` is the backing array of the slice `s` (its length never
changes), `sLen` is the current length of the Go slice `s`, and
`deleted` accumulates the hashes passed to `Store.Share.Delete`.

The Go loop is `for i, link := range s` with
`s = append(s[:i], s[i+1:]...)` in the body: the range clause iterates
over the slice header captured at loop entry (original length, shared
backing array), while the append shifts elements left in place.
`s[i+1:]` panics when `i + 1` exceeds the current `len(s)`; a panic is
modelled as `none`. -/
def sweepLoop (now : Int) :
    Nat → Nat → List ShareLink → Nat → List String →
    List String × Option (List ShareLink)
  | 0, _, backing, sLen, deleted => (deleted, some (backing.take sLen))
  | fuel + 1, i, backing, sLen, deleted =>
    match backing.get? i with
    | none => (deleted, some (backing.take sLen))
    | some link =>
      if link.expires ∧ link.expireDate < now then
        let deleted := deleted ++ [link.hash]
        if sLen < i + 1 then (deleted, none)
        else
          sweepLoop now fuel (i + 1)
            (backing.take i ++ (backing.drop (i + 1)).take (sLen - i - 1)
              ++ backing.drop (sLen - 1))
            (sLen - 1) deleted
      else sweepLoop now fuel (i + 1) backing sLen deleted

/-- Outcome of `shareGetHandler`: an HTTP error status, a rendered list of
links together with the hashes deleted from the store, or a runtime panic
(with the hashes deleted before the panic). -/
inductive ShareGetOut
  | err (status : Nat)
  | ok (links : List ShareLink) (deleted : List String)
  | crash (deleted : List String)
deriving DecidableEq

/-- `shareGetHandler` after user resolution: `sharePerm` is
`user.Perm.Share`, `lookup` the answer of `Store.Share.GetByPath`, and
`now` the current time. -/
def shareGetHandler (sharePerm : Bool) (lookup : Except StoreErr (List ShareLink))
    (now : Int) : ShareGetOut :=
  if !sharePerm then .err 403
  else
    match lookup with
    | .error .notExist => .ok [] []
    | .error .storage => .err 500
    | .ok s =>
      match sweepLoop now s.length 0 s s.length [] with
      | (deleted, none) => .crash deleted
      | (deleted, some out) => .ok out deleted

/-- The filtering the spec demands from the listing operation: keep
exactly the links that are not expired. -/
def freshLinks (now : Int) (s : List ShareLink) : List ShareLink :=
  s.filter (fun l => !(l.expires && decide (l.expireDate < now)))

/-- Outcome of `sharePostHandler`: an HTTP error status, a reuse of an
existing permanent link (the handler writes the bare share URL and saves
nothing), or a newly built link passed to `Store.Share.Save`. -/
inductive SharePostOut
  | err (status : Nat)
  | reuse (text : String)
  | saved (link : ShareLink)
deriving DecidableEq

/-- The nanosecond duration selected by the `unit` query parameter in
`sharePostHandler` (`time.Second`, `time.Minute`, `time.Hour * 24`, and
`time.Hour` for the default branch). -/
def goUnitNanos (unit : String) : Int :=
  if unit = ("seconds") then 1000000000
  else if unit = ("minutes") then 60000000000
  else if unit = ("days") then 86400000000000
  else 3600000000000

/-- The part of `sharePostHandler` after the permanent-link lookup:
generate the token (`randHash` is the base64 token from `rand.Read`,
`none` modelling a randomness failure), build the record, and parse the
expiry. `Store.Share.Save` receives the `saved` link. -/
def sharePostBody (path expire unit : String) (randHash : Option String)
    (now : Int) : SharePostOut :=
  match randHash with
  | none => .err 500
  | some str =>
    if expire = ("") then .saved ⟨path, str, false, 0⟩
    else
      match goAtoi expire with
      | none => .err 500
      | some num =>
        .saved ⟨path, str, true, now + i64wrap (goUnitNanos unit * num)⟩

/-- `sharePostHandler` after `getShareData`: `path` is the joined scope
path, `expire` and `unit` the query parameters, `lookup` the answer of
`Store.Share.GetPermanent path` (consulted only when no expiry is
requested). -/
def sharePostHandler (baseURL path expire unit : String)
    (lookup : Except StoreErr ShareLink) (randHash : Option String)
    (now : Int) : SharePostOut :=
  if expire = ("") then
    match lookup with
    | .ok s => .reuse (baseURL ++ ("/share/") ++ s.hash)
    | .error _ => sharePostBody path expire unit randHash now
  else sharePostBody path expire unit randHash now

/-- Effect of a `sharePostHandler` outcome on the stored share links:
`Store.Share.Save` persists the new record (its hash is fresh, so the
record is appended); the other outcomes touch the store only through the
deletions already recorded. Modelled from the spec: the ShareLink store
collaborator (get-by-path, get-permanent-by-path, save, delete-by-hash)
is not under src/. -/
def applyShareOut (store : List ShareLink) : SharePostOut → List ShareLink
  | .saved l => store ++ [l]
  | _ => store

/-- Is `l` a permanent (non-expiring) link for path `p`? -/
def isPermanentFor (p : String) (l : ShareLink) : Bool :=
  l.path = p && !l.expires

/-! ### Scoped filesystem model

The filesystem behind `user.Fs` is an external collaborator (an `afero`
filesystem scoped to the user). Modelled from the spec: the
ScopedFilesystem capability (stat/open/remove-all/rename/mkdir-all
confined to the user's scope), as a finite map from paths to nodes. -/

/-- A filesystem node: directory flag, file content, modification time in
nanoseconds, and size in bytes. -/
structure FileNode where
  isDir : Bool
  content : String
  modNanos : Int
  size : Int
deriving DecidableEq

/-- A scoped filesystem: association list from absolute scoped paths to nodes. -/
abbrev Fs := List (String × FileNode)

/-- `Fs.Stat`: the node stored at `p`, if any. -/
def fsLookup (fs : Fs) (p : String) : Option FileNode :=
  ((fs : List (String × FileNode)).find? (fun e => e.1 = p)).map (fun e => e.2)

/-- `Fs.RemoveAll p`: drop `p` and everything below it; never an error. -/
def fsRemoveAll (fs : Fs) (p : String) : Fs :=
  (fs : List (String × FileNode)).filter
    (fun e => !(e.1 = p || hasPfx (p ++ ("/")).data e.1.data))

/-- `Fs.Rename src dst` on an existing source node: the entry moves to `dst`. -/
def fsRenameEntry (fs : Fs) (src dst : String) (n : FileNode) : Fs :=
  ((fs : List (String × FileNode)).filter (fun e => !(e.1 = src) && !(e.1 = dst))) ++ [(dst, n)]

/-- The write performed by the upload closure in `resourcePostPutHandler`:
`OpenFile(path, O_RDWR|O_CREATE|O_TRUNC, 0775)` followed by a copy of the
request body, so the node at `path` is created or truncated and replaced. -/
def fsWrite (fs : Fs) (p body : String) (now : Int) : Fs :=
  ((fs : List (String × FileNode)).filter (fun e => !(e.1 = p))) ++
    [(p, ⟨false, body, now, (body.length : Int)⟩)]

/-- Go error classes distinguished by `httpFsErr`. -/
inductive GoFsErr
  | notExist
  | permission
  | exist
  | other
deriving DecidableEq

/-- `httpFsErr` from the resource handler file: map a filesystem error to
an HTTP status. -/
def httpFsErr : Option GoFsErr → Nat
  | none => 200
  | some .permission => 403
  | some .notExist => 404
  | some .exist => 409
  | some .other => 500

/-! ### Path resolution (`getResourceData`) -/

/-- The routing prefix of the resource handlers. -/
def apiResourceRoute : String := "/api/resources"

/-- Path resolution in `getResourceData`: strip the routing prefix, strip a
trailing separator, and default an empty result to the root path. -/
def resolvePath (raw pfx : String) : String :=
  let p := trimSfx (trimPfx raw pfx) ("/")
  if p = ("") then ("/") else p

/-- `getResourceData` after user resolution: resolve the path and test
reachability; `none` means the handler already answered 403 Forbidden. -/
def getResourceData (user : User) (raw : String) : Option String :=
  let path := resolvePath raw apiResourceRoute
  if user.allowed path then some path else none

/-! ### Runner and the mutating resource handlers -/

/-- An invocation of `Runner.Run`: the event name and the source and
destination arguments passed alongside the wrapped closure. -/
structure RunnerCall where
  event : String
  srcArg : String
  dstArg : String
deriving DecidableEq

/-- Result of `resourceDeleteHandler`: HTTP status, the Runner invocations
performed, and the resulting filesystem. -/
structure DeleteOut where
  status : Nat
  calls : List RunnerCall
  fs : Fs
deriving DecidableEq

/-- `resourceDeleteHandler`: refuse the scope root and the missing
capability, otherwise remove recursively through the Runner under the
event name `delete`. -/
def resourceDeleteHandler (user : User) (raw : String) (fs : Fs) : DeleteOut :=
  match getResourceData user raw with
  | none => ⟨403, [], fs⟩
  | some path =>
    if path = ("/") ∨ !user.perm.del then ⟨403, [], fs⟩
    else ⟨200, [⟨("delete"), path, ("")⟩], fsRemoveAll fs path⟩

/-- Result of `resourcePatchHandler`. -/
structure PatchOut where
  status : Nat
  calls : List RunnerCall
  fs : Fs
deriving DecidableEq

/-- The closure `resourcePatchHandler` hands to the Runner: for `copy` it
does nothing and reports success (the copy body is an unimplemented TODO
in the source); otherwise it renames `src` to `dst`, failing with
not-exist when the source is absent. -/
def patchOp (action src dst : String) (fs : Fs) : Option GoFsErr × Fs :=
  if action = ("copy") then (none, fs)
  else
    match fsLookup fs src with
    | none => (some .notExist, fs)
    | some n => (none, fsRenameEntry fs src dst n)

/-- The Runner invocation at the end of `resourcePatchHandler`: the event
name is the literal `action`, and the final status classifies the
closure's error. -/
def patchRun (action src dst : String) (fs : Fs) : PatchOut :=
  let r := patchOp action src dst fs
  ⟨httpFsErr r.1, [⟨("action"), src, dst⟩], r.2⟩

/-- `resourcePatchHandler`: `uDst` is the result of
`url.QueryUnescape(destination)` (`none` is a decoding failure, answered
with the default error status). The `action` switch: `copy` requires the
create capability, an explicit `rename` is dispatched with no capability
check, and any other value defaults to `rename` guarded by the rename
capability. -/
def resourcePatchHandler (user : User) (raw : String) (uDst : Option String)
    (action : String) (fs : Fs) : PatchOut :=
  match getResourceData user raw with
  | none => ⟨403, [], fs⟩
  | some src =>
    match uDst with
    | none => ⟨500, [], fs⟩
    | some dst =>
      if dst = ("/") ∨ src = ("/") then ⟨403, [], fs⟩
      else if action = ("copy") then
        if !user.perm.create then ⟨403, [], fs⟩
        else patchRun ("copy") src dst fs
      else if action = ("rename") then patchRun ("rename") src dst fs
      else if !user.perm.rename then ⟨403, [], fs⟩
      else patchRun ("rename") src dst fs

/-! ### Create/write handler -/

/-- A hexadecimal rendering of a natural number (Go `%x`). -/
def hexOfNat (n : Nat) : String :=
  ⟨Nat.toDigits 16 n⟩

/-- Go `%x` on a signed integer: a minus sign followed by the magnitude. -/
def hexOfInt (i : Int) : String :=
  if i < 0 then ("-") ++ hexOfNat i.natAbs else hexOfNat i.natAbs

/-- The double-quote character. -/
def quoteChar : Char := Char.ofNat 34

/-- The integrity tag computed after a successful write:
`fmt.Sprintf` of the modification time in nanoseconds and the size, in
hexadecimal, wrapped in double quotes. -/
def goEtag (modNanos size : Int) : String :=
  String.singleton quoteChar ++ hexOfInt modNanos ++ hexOfInt size
    ++ String.singleton quoteChar

/-- `Fs.MkdirAll path 0775`: succeeds when the path is absent (the
directory is created) or already a directory; a file in the way is an
unexpected error. -/
def fsMkdirAll (fs : Fs) (p : String) : Option GoFsErr × Fs :=
  match fsLookup fs p with
  | some n => if n.isDir then (none, fs) else (some .other, fs)
  | none => (none, (fs : List (String × FileNode)) ++ [(p, ⟨true, (""), 0, 0⟩)])

/-- Result of `resourcePostPutHandler`: HTTP status, Runner invocations,
resulting filesystem, and the `ETag` header when one was set. -/
structure PostPutOut where
  status : Nat
  calls : List RunnerCall
  fs : Fs
  etag : Option String
deriving DecidableEq

/-- `resourcePostPutHandler`: `method` is the request method (`POST` or
`PUT`), `override` the `override` query parameter, `body` the request
body, `now` the modification time the written file ends up with.
POST requires the create capability and PUT the modify capability; a
trailing separator on the raw URL selects the directory branch; a POST
on an existing file without `override=true` is a conflict; otherwise the
upload closure runs through the Runner under the event name `upload` and
sets the integrity tag from the written file's stat. -/
def resourcePostPutHandler (user : User) (raw method override body : String)
    (now : Int) (fs : Fs) : PostPutOut :=
  match getResourceData user raw with
  | none => ⟨403, [], fs, none⟩
  | some path =>
    if !user.perm.create && method = ("POST") then ⟨403, [], fs, none⟩
    else if !user.perm.modify && method = ("PUT") then ⟨403, [], fs, none⟩
    else if hasSfx raw ("/") then
      if method = ("PUT") then ⟨405, [], fs, none⟩
      else
        let r := fsMkdirAll fs path
        ⟨httpFsErr r.1, [], r.2, none⟩
    else if method = ("POST") && override ≠ ("true") && (fsLookup fs path).isSome then
      ⟨409, [], fs, none⟩
    else
      ⟨200, [⟨("upload"), path, ("")⟩], fsWrite fs path body now,
        some (goEtag now (body.length : Int))⟩

/-! ### Listing and sort preference -/

/-- A cookie set on the response (`http.SetCookie`). -/
structure SetCookie where
  cookieName : String
  value : String
  maxAge : Nat
  cookiePath : String
deriving DecidableEq

/-- The request's stored preference cookies, if present. -/
structure SortCookies where
  sortC : Option String
  orderC : Option String

/-- `handleSortOrder`: an empty parameter falls back to the stored cookie
or the default (`name` / `asc`); the recognised values `name`,`size` and
`asc`,`desc` are echoed into year-long cookies scoped to `scope`; any
other value falls through the switch unchanged — it is neither replaced
nor persisted. -/
def handleSortOrder (sortP orderP : String) (ck : SortCookies) (scope : String) :
    String × String × List SetCookie :=
  let s :=
    if sortP = ("") then
      (match ck.sortC with
       | some v => (v, ([] : List SetCookie))
       | none => (("name"), ([] : List SetCookie)))
    else if sortP = ("name") ∨ sortP = ("size") then
      (sortP, [⟨("sort"), sortP, 31536000, scope⟩])
    else (sortP, ([] : List SetCookie))
  let o :=
    if orderP = ("") then
      (match ck.orderC with
       | some v => (v, ([] : List SetCookie))
       | none => (("asc"), ([] : List SetCookie)))
    else if orderP = ("asc") ∨ orderP = ("desc") then
      (orderP, [⟨("order"), orderP, 31536000, scope⟩])
    else (orderP, ([] : List SetCookie))
  (s.1, o.1, s.2 ++ o.2)

/-! ### Read handler -/

/-- The sort state of a directory listing. -/
structure Listing where
  sort : String
  order : String
deriving DecidableEq

/-- Modelled from the spec: `types.FileInfo` (not under src/) — a
transient view of a file or directory: type classification, optional
embedded content, and for directories the listing sort state. -/
structure FileInfo where
  isDir : Bool
  typ : String
  content : String
  listing : Listing
deriving DecidableEq

/-- Errors of the modelled checksum computation. -/
inductive ChecksumErr
  | invalidOption
  | other
deriving DecidableEq

/-- The checksum algorithms the file type implements. -/
def supportedChecksums : List String :=
  [("md5"), ("sha1"), ("sha256"), ("sha512")]

/-- Modelled from the spec: `types.FileInfo.Checksum` (not under src/) —
compute the requested digest of the content (`dg` is the digest
function); an unsupported algorithm name fails with
`types.ErrInvalidOption`. -/
def checksumOf (dg : String → String → String) (algo : String) (f : FileInfo) :
    Except ChecksumErr String :=
  if supportedChecksums.contains algo then .ok (dg algo f.content)
  else .error .invalidOption

/-- The read-only marking in `resourceGetHandler`: a text file is reported
as `textImmutable` to a caller without the modify capability. -/
def textAdjust (user : User) (f : FileInfo) : FileInfo :=
  if !user.perm.modify && f.typ = ("text") then { f with typ := ("textImmutable") } else f

/-- Result of `resourceGetHandler`: HTTP status, rendered payload, and the
cookies set on the response. -/
structure GetOut where
  status : Nat
  payload : Option FileInfo
  cookies : List SetCookie
deriving DecidableEq

/-- `resourceGetHandler`: `fileRes` is the answer of `types.NewFileInfo`
(an external constructor), `dg` the digest function consumed by the
modelled checksum computation. For a directory the listing's sort state
comes from `handleSortOrder` (with scope `/`); for a file, a requested
checksum either fails (`ErrInvalidOption` answered with 400, anything
else with 500) or succeeds, in which case the embedded content is
dropped from the response. -/
def resourceGetHandler (user : User) (raw sortP orderP checksumP : String)
    (ck : SortCookies) (fileRes : Except GoFsErr FileInfo)
    (dg : String → String → String) : GetOut :=
  match getResourceData user raw with
  | none => ⟨403, none, []⟩
  | some _ =>
    match fileRes with
    | .error e => ⟨httpFsErr (some e), none, []⟩
    | .ok file =>
      if file.isDir then
        let r := handleSortOrder sortP orderP ck ("/")
        ⟨200, some { file with listing := ⟨r.1, r.2.1⟩ }, r.2.2⟩
      else
        let file := textAdjust user file
        if checksumP ≠ ("") then
          match checksumOf dg checksumP file with
          | .error .invalidOption => ⟨400, none, []⟩
          | .error .other => ⟨500, none, []⟩
          | .ok _ => ⟨200, some { file with content := ("") }, []⟩
        else ⟨200, some file, []⟩

/-! ### Helper lemmas -/

/-- A wrapped 64-bit value already in range is unchanged. -/
theorem i64wrap_eq_self (x : Int) (hlo : -(2 ^ 63) ≤ x) (hhi : x < 2 ^ 63) :
    i64wrap x = x := by
  unfold i64wrap
  have e64 : (2 : Int) ^ 64 = 18446744073709551616 := by norm_num
  have e63 : (2 : Int) ^ 63 = 9223372036854775808 := by norm_num
  rw [e63, e64] at *
  rw [Int.emod_eq_of_lt (by omega) (by omega)]
  omega

/-- Reading back the node just written by `fsWrite`. -/
theorem fsLookup_fsWrite (fs : Fs) (p body : String) (now : Int) :
    fsLookup (fsWrite fs p body now) p = some ⟨false, body, now, (body.length : Int)⟩ := by
  unfold fsLookup fsWrite
  induction fs with
  | nil => simp
  | cons e tl ih =>
    by_cases he : e.1 = p
    · simp [he]
    · simp [List.filter_cons, he, ih]

/-! ### Concrete evaluation: claim C1 -/

/-- Claim C1 (code bug): listing links when the stored sequence holds two
adjacent expired links does not return the filtered sequence — the in-place
mutation during the range loop deletes both hashes from the store and then
panics on the slice expression, while the specified filtering would return
the empty list. -/
theorem shareGet_adjacent_expired_crash :
    shareGetHandler true (.ok [⟨("/p"), ("h1"), true, 0⟩, ⟨("/p"), ("h2"), true, 0⟩]) 5 =
      .crash [("h1"), ("h2")]
    ∧ freshLinks 5 [⟨("/p"), ("h1"), true, 0⟩, ⟨("/p"), ("h2"), true, 0⟩] = [] := by
  decide

/-- Claim C2 (code bug): a PATCH with the explicit parameter
`action=rename` by a user with every capability flag false is not refused:
the Runner is invoked and the filesystem entry is renamed; omitting the
action or requesting a copy is refused as the claim states. -/
theorem patch_explicit_rename_bypasses_permission :
    resourcePatchHandler
        ⟨("/"), ⟨false, false, false, false, false, false, false, false⟩, fun _ => true⟩
        ("/api/resources/a") (some ("/b")) ("rename") [(("/a"), ⟨false, ("x"), 0, 1⟩)] =
      ⟨200, [⟨("action"), ("/a"), ("/b")⟩], [(("/b"), ⟨false, ("x"), 0, 1⟩)]⟩
    ∧ resourcePatchHandler
        ⟨("/"), ⟨false, false, false, false, false, false, false, false⟩, fun _ => true⟩
        ("/api/resources/a") (some ("/b")) ("") [(("/a"), ⟨false, ("x"), 0, 1⟩)] =
      ⟨403, [], [(("/a"), ⟨false, ("x"), 0, 1⟩)]⟩
    ∧ resourcePatchHandler
        ⟨("/"), ⟨false, false, false, false, false, false, false, false⟩, fun _ => true⟩
        ("/api/resources/a") (some ("/b")) ("copy") [(("/a"), ⟨false, ("x"), 0, 1⟩)] =
      ⟨403, [], [(("/a"), ⟨false, ("x"), 0, 1⟩)]⟩ := by
  decide

/-- Claim C3, counterexample: with a permanent link for `/p` already
stored, a create request with no expiry whose permanent-link lookup fails
with a storage error generates and saves a second permanent link, so two
permanent links for `/p` are stored afterwards. -/
theorem share_post_duplicate_permanent_on_lookup_error :
    sharePostHandler ("") ("/p") ("") ("") (.error .storage) (some ("h2")) 0 =
      .saved ⟨("/p"), ("h2"), false, 0⟩
    ∧ (applyShareOut [⟨("/p"), ("h1"), false, 0⟩]
          (sharePostHandler ("") ("/p") ("") ("") (.error .storage) (some ("h2")) 0)).countP
        (isPermanentFor ("/p")) = 2 := by
  decide

/-- Claim C3, amended: when the permanent-link lookup succeeds, the
create request with no expiry returns the stored link's share URL
unchanged and saves nothing, so the store is untouched; a failing lookup
(not-exist or storage error) instead creates and saves a fresh link. -/
theorem share_post_reuses_permanent_on_lookup_success
    (baseURL path unit : String) (s : ShareLink) (randHash : Option String)
    (now : Int) (store : List ShareLink) :
    sharePostHandler baseURL path ("") unit (.ok s) randHash now =
      .reuse (baseURL ++ ("/share/") ++ s.hash)
    ∧ applyShareOut store (sharePostHandler baseURL path ("") unit (.ok s) randHash now) = store := by
  constructor <;> simp [sharePostHandler, applyShareOut]

/-- Claim C6, counterexample: a create request whose `expires` parameter
is not a valid integer is answered with the generic internal server
error status 500, not with the 400 client-error status that signals
`ErrInvalidOption` elsewhere in the code. -/
theorem share_post_bad_expires_is_internal_error :
    sharePostHandler ("") ("/p") ("abc") ("") (.error .notExist) (some ("h")) 0 = .err 500
    ∧ sharePostHandler ("") ("/p") ("abc") ("") (.error .notExist) (some ("h")) 0 ≠ .err 400 := by
  decide

/-- Claim C6, amended: for every create request whose `expires` parameter
is present but not a valid integer, the failure is surfaced as a generic
internal server error (status 500). -/
theorem share_post_bad_expires_status (baseURL path expire unit h2 : String)
    (lookup : Except StoreErr ShareLink) (now : Int)
    (hp : goAtoi expire = none) (hne : expire ≠ ("")) :
    sharePostHandler baseURL path expire unit lookup (some h2) now = .err 500 := by
  simp [sharePostHandler, sharePostBody, hne, hp]

/-- Witness for `share_post_bad_expires_status` at a concrete request. -/
theorem share_post_bad_expires_status_witness :
    sharePostHandler ("") ("/p") ("12x") ("") (.error .notExist) (some ("h")) 0 = .err 500 :=
  share_post_bad_expires_status ("") ("/p") ("12x") ("") ("h") (.error .notExist) 0
    (by decide) (by decide)

/-- Claim C7, counterexample: a directory listing requested with the
unrecognised sort value `zzz` is produced with `zzz` as the active sort
key of the listing — the invalid value is passed through, not replaced by
the stored preference or the default. -/
theorem sort_invalid_value_used_as_active_key :
    resourceGetHandler
        ⟨("/"), ⟨true, true, true, true, true, true, true, true⟩, fun _ => true⟩
        ("/api/resources/d") ("zzz") ("") ("") ⟨none, none⟩
        (.ok ⟨true, ("dir"), (""), ⟨("name"), ("asc")⟩⟩) (fun _ _ => ("")) =
      ⟨200, some ⟨true, ("dir"), (""), ⟨("zzz"), ("asc")⟩⟩, []⟩ := by
  decide

/-- Claim C7, amended: an unrecognised sort or order value is not
persisted as a preference cookie, but it is not ignored either — it is
used verbatim as the active sort key or order; recognised values are used
and persisted as year-long cookies; absent parameters fall back to the
stored cookie or the defaults `name`/`asc`. -/
theorem sort_order_param_handling (sortP orderP scope : String) (ck : SortCookies)
    (hs : ¬(sortP = ("") ∨ sortP = ("name") ∨ sortP = ("size")))
    (ho : ¬(orderP = ("") ∨ orderP = ("asc") ∨ orderP = ("desc"))) :
    handleSortOrder sortP orderP ck scope = (sortP, orderP, [])
    ∧ handleSortOrder ("name") ("asc") ck scope =
        (("name"), ("asc"),
          [⟨("sort"), ("name"), 31536000, scope⟩, ⟨("order"), ("asc"), 31536000, scope⟩])
    ∧ handleSortOrder ("size") ("desc") ck scope =
        (("size"), ("desc"),
          [⟨("sort"), ("size"), 31536000, scope⟩, ⟨("order"), ("desc"), 31536000, scope⟩])
    ∧ handleSortOrder ("") ("") ck scope =
        (ck.sortC.getD ("name"), ck.orderC.getD ("asc"), []) := by
  push_neg at hs ho
  obtain ⟨hs1, hs2, hs3⟩ := hs
  obtain ⟨ho1, ho2, ho3⟩ := ho
  refine ⟨?_, ?_, ?_, ?_⟩
  · simp [handleSortOrder, hs1, hs2, hs3, ho1, ho2, ho3]
  · simp [handleSortOrder]
  · simp [handleSortOrder]
  · cases hc : ck.sortC <;> cases hoc : ck.orderC <;>
      simp [handleSortOrder, hc, hoc]

/-- Witness for `sort_order_param_handling` at a concrete request. -/
theorem sort_order_param_handling_witness :
    handleSortOrder ("zzz") ("qqq") ⟨some ("size"), some ("desc")⟩ ("/") =
        (("zzz"), ("qqq"), [])
    ∧ handleSortOrder ("name") ("asc") ⟨some ("size"), some ("desc")⟩ ("/") =
        (("name"), ("asc"),
          [⟨("sort"), ("name"), 31536000, ("/")⟩, ⟨("order"), ("asc"), 31536000, ("/")⟩])
    ∧ handleSortOrder ("size") ("desc") ⟨some ("size"), some ("desc")⟩ ("/") =
        (("size"), ("desc"),
          [⟨("sort"), ("size"), 31536000, ("/")⟩, ⟨("order"), ("desc"), 31536000, ("/")⟩])
    ∧ handleSortOrder ("") ("") ⟨some ("size"), some ("desc")⟩ ("/") =
        (("size"), ("desc"), []) :=
  sort_order_param_handling ("zzz") ("qqq") ("/") ⟨some ("size"), some ("desc")⟩
    (by decide) (by decide)

/-- Claim C4: a delete request whose resolved path is the scope root, and
a move/copy request whose resolved source or unescaped destination is the
scope root, are answered 403 Forbidden whatever the user's permission
flags, with no Runner invocation and the filesystem unchanged. -/
theorem root_path_always_forbidden (user : User) (rawA rawB : String) (fs : Fs)
    (action dstB : String)
    (h1 : resolvePath rawA apiResourceRoute = ("/"))
    (h2 : dstB = ("/") ∨ resolvePath rawB apiResourceRoute = ("/")) :
    resourceDeleteHandler user rawA fs = ⟨403, [], fs⟩
    ∧ resourcePatchHandler user rawB (some dstB) action fs = ⟨403, [], fs⟩ := by
  constructor
  · unfold resourceDeleteHandler getResourceData
    rw [h1]
    cases hA : user.allowed ("/") <;> simp [hA]
  · unfold resourcePatchHandler getResourceData
    rcases h2 with h2 | h2
    · subst h2
      cases hA : user.allowed (resolvePath rawB apiResourceRoute) <;> simp [hA]
    · rw [h2]
      cases hA : user.allowed ("/") <;> simp [hA]

/-- Witness for `root_path_always_forbidden` at a concrete request. -/
theorem root_path_always_forbidden_witness :
    resourceDeleteHandler
        ⟨("/"), ⟨true, true, true, true, true, true, true, true⟩, fun _ => true⟩
        ("/api/resources") [] = ⟨403, [], []⟩
    ∧ resourcePatchHandler
        ⟨("/"), ⟨true, true, true, true, true, true, true, true⟩, fun _ => true⟩
        ("/api/resources/a") (some ("/")) ("copy") [] = ⟨403, [], []⟩ :=
  root_path_always_forbidden
    ⟨("/"), ⟨true, true, true, true, true, true, true, true⟩, fun _ => true⟩
    ("/api/resources") ("/api/resources/a") [] ("copy") ("/")
    (by decide) (Or.inl (by decide))

/-- Claim C8: an authorized copy runs through the Runner under the event
name `action` with a closure that touches nothing and succeeds, so the
handler reports 200 while the filesystem is left unchanged; a rename is
dispatched under the same event name `action`. -/
theorem patch_copy_noop_event_action (user : User) (raw dst : String) (fs : Fs)
    (hC : user.perm.create = true)
    (hA : user.allowed (resolvePath raw apiResourceRoute) = true)
    (hs : resolvePath raw apiResourceRoute ≠ ("/"))
    (hd : dst ≠ ("/")) :
    resourcePatchHandler user raw (some dst) ("copy") fs =
      ⟨200, [⟨("action"), resolvePath raw apiResourceRoute, dst⟩], fs⟩
    ∧ (resourcePatchHandler user raw (some dst) ("rename") fs).calls =
        [⟨("action"), resolvePath raw apiResourceRoute, dst⟩] := by
  constructor
  · unfold resourcePatchHandler getResourceData
    simp [hA, hs, hd, hC, patchRun, patchOp, httpFsErr]
  · unfold resourcePatchHandler getResourceData
    simp [hA, hs, hd, patchRun, patchOp]

/-- Witness for `patch_copy_noop_event_action` at a concrete request. -/
theorem patch_copy_noop_event_action_witness :
    resourcePatchHandler
        ⟨("/"), ⟨true, true, true, true, true, true, true, true⟩, fun _ => true⟩
        ("/api/resources/a") (some ("/b")) ("copy") [(("/a"), ⟨false, ("x"), 0, 1⟩)] =
      ⟨200, [⟨("action"), ("/a"), ("/b")⟩], [(("/a"), ⟨false, ("x"), 0, 1⟩)]⟩
    ∧ (resourcePatchHandler
        ⟨("/"), ⟨true, true, true, true, true, true, true, true⟩, fun _ => true⟩
        ("/api/resources/a") (some ("/b")) ("rename") [(("/a"), ⟨false, ("x"), 0, 1⟩)]).calls =
      [⟨("action"), ("/a"), ("/b")⟩] :=
  patch_copy_noop_event_action
    ⟨("/"), ⟨true, true, true, true, true, true, true, true⟩, fun _ => true⟩
    ("/api/resources/a") ("/b") [(("/a"), ⟨false, ("x"), 0, 1⟩)]
    (by decide) (by decide) (by decide) (by decide)

/-- Claim C5: on an existing file target (no trailing separator), a POST
whose `override` parameter is not `true` is answered 409 Conflict with no
Runner invocation and the filesystem untouched; a POST with
`override=true` and every PUT run the upload through the Runner,
replacing the node and answering 200 with the integrity tag computed from
the written file's modification time and size. -/
theorem post_put_conflict_and_overwrite (user : User) (raw ov body : String)
    (now : Int) (fs : Fs) (node : FileNode)
    (hC : user.perm.create = true) (hM : user.perm.modify = true)
    (hA : user.allowed (resolvePath raw apiResourceRoute) = true)
    (hS : hasSfx raw ("/") = false)
    (hE : fsLookup fs (resolvePath raw apiResourceRoute) = some node)
    (hOv : ov ≠ ("true")) :
    resourcePostPutHandler user raw ("POST") ov body now fs = ⟨409, [], fs, none⟩
    ∧ resourcePostPutHandler user raw ("POST") ("true") body now fs =
        ⟨200, [⟨("upload"), resolvePath raw apiResourceRoute, ("")⟩],
          fsWrite fs (resolvePath raw apiResourceRoute) body now,
          some (goEtag now (body.length : Int))⟩
    ∧ resourcePostPutHandler user raw ("PUT") ov body now fs =
        ⟨200, [⟨("upload"), resolvePath raw apiResourceRoute, ("")⟩],
          fsWrite fs (resolvePath raw apiResourceRoute) body now,
          some (goEtag now (body.length : Int))⟩
    ∧ fsLookup (fsWrite fs (resolvePath raw apiResourceRoute) body now)
        (resolvePath raw apiResourceRoute) = some ⟨false, body, now, (body.length : Int)⟩ := by
  refine ⟨?_, ?_, ?_, fsLookup_fsWrite fs (resolvePath raw apiResourceRoute) body now⟩
  · unfold resourcePostPutHandler getResourceData
    simp [hA, hC, hM, hS, hE, hOv]
  · unfold resourcePostPutHandler getResourceData
    simp [hA, hC, hM, hS]
  · unfold resourcePostPutHandler getResourceData
    simp [hA, hC, hM, hS]

/-- Witness for `post_put_conflict_and_overwrite` at a concrete request. -/
theorem post_put_conflict_and_overwrite_witness :
    resourcePostPutHandler
        ⟨("/"), ⟨true, true, true, true, true, true, true, true⟩, fun _ => true⟩
        ("/api/resources/a") ("POST") ("x") ("hi") 7 [(("/a"), ⟨false, (""), 0, 0⟩)] =
      ⟨409, [], [(("/a"), ⟨false, (""), 0, 0⟩)], none⟩
    ∧ resourcePostPutHandler
        ⟨("/"), ⟨true, true, true, true, true, true, true, true⟩, fun _ => true⟩
        ("/api/resources/a") ("POST") ("true") ("hi") 7 [(("/a"), ⟨false, (""), 0, 0⟩)] =
      ⟨200, [⟨("upload"), ("/a"), ("")⟩],
        fsWrite [(("/a"), ⟨false, (""), 0, 0⟩)] ("/a") ("hi") 7, some (goEtag 7 2)⟩
    ∧ resourcePostPutHandler
        ⟨("/"), ⟨true, true, true, true, true, true, true, true⟩, fun _ => true⟩
        ("/api/resources/a") ("PUT") ("x") ("hi") 7 [(("/a"), ⟨false, (""), 0, 0⟩)] =
      ⟨200, [⟨("upload"), ("/a"), ("")⟩],
        fsWrite [(("/a"), ⟨false, (""), 0, 0⟩)] ("/a") ("hi") 7, some (goEtag 7 2)⟩
    ∧ fsLookup (fsWrite [(("/a"), ⟨false, (""), 0, 0⟩)] ("/a") ("hi") 7) ("/a") =
        some ⟨false, ("hi"), 7, 2⟩ :=
  post_put_conflict_and_overwrite
    ⟨("/"), ⟨true, true, true, true, true, true, true, true⟩, fun _ => true⟩
    ("/api/resources/a") ("x") ("hi") 7 [(("/a"), ⟨false, (""), 0, 0⟩)]
    ⟨false, (""), 0, 0⟩
    (by decide) (by decide) (by decide) (by decide) (by decide) (by decide)

/-- Claim C9: a create request with a valid integer expiry amount saves a
link whose `expires` flag is set and whose expiry date is the current
time plus the amount converted through the unit (`seconds`, `minutes`,
`days`, defaulting to hours), provided the converted duration fits in a
64-bit count of nanoseconds; with an empty `expires` parameter the saved
link has the flag unset. -/
theorem share_post_expiry_units (baseURL path expire unit h2 : String)
    (lookup : Except StoreErr ShareLink) (er : StoreErr) (num now : Int)
    (hp : goAtoi expire = some num)
    (hlo : -(2 ^ 63) ≤ goUnitNanos unit * num)
    (hhi : goUnitNanos unit * num < 2 ^ 63) :
    sharePostHandler baseURL path expire unit lookup (some h2) now =
      .saved ⟨path, h2, true, now + goUnitNanos unit * num⟩
    ∧ sharePostHandler baseURL path ("") unit (.error er) (some h2) now =
        .saved ⟨path, h2, false, 0⟩ := by
  have hne : expire ≠ ("") := by
    intro h
    rw [h] at hp
    rw [show goAtoi ("") = none from by decide] at hp
    exact Option.noConfusion hp
  constructor
  · simp [sharePostHandler, sharePostBody, hne, hp, i64wrap_eq_self _ hlo hhi]
  · simp [sharePostHandler, sharePostBody]

/-- Witness for `share_post_expiry_units` at a concrete request. -/
theorem share_post_expiry_units_witness :
    sharePostHandler ("") ("/p") ("10") ("minutes") (.error .notExist) (some ("h")) 3 =
      .saved ⟨("/p"), ("h"), true, 3 + goUnitNanos ("minutes") * 10⟩
    ∧ sharePostHandler ("") ("/p") ("") ("minutes") (.error .notExist) (some ("h")) 3 =
        .saved ⟨("/p"), ("h"), false, 0⟩ :=
  share_post_expiry_units ("") ("/p") ("10") ("minutes") ("h")
    (.error .notExist) .notExist 10 3 (by decide) (by decide) (by decide)

/-- Claim C10: a file read naming a checksum algorithm is answered 400
(the `ErrInvalidOption` signal) when the algorithm is unsupported, and on
a supported algorithm the rendered payload carries no embedded content. -/
theorem checksum_request_behavior (user : User) (raw sortP orderP csum : String)
    (ck : SortCookies) (dg : String → String → String) (file : FileInfo)
    (hA : user.allowed (resolvePath raw apiResourceRoute) = true)
    (hD : file.isDir = false) (hC : csum ≠ ("")) :
    resourceGetHandler user raw sortP orderP csum ck (.ok file) dg =
      if supportedChecksums.contains csum
      then ⟨200, some { textAdjust user file with content := ("") }, []⟩
      else ⟨400, none, []⟩ := by
  unfold resourceGetHandler getResourceData
  by_cases hsup : csum ∈ supportedChecksums <;>
    simp [hA, hD, hC, checksumOf, hsup]

/-- Witness for `checksum_request_behavior` at a concrete request. -/
theorem checksum_request_behavior_witness :
    resourceGetHandler
        ⟨("/"), ⟨true, true, true, true, true, true, true, true⟩, fun _ => true⟩
        ("/api/resources/f") ("") ("") ("sha1") ⟨none, none⟩
        (.ok ⟨false, ("text"), ("abc"), ⟨("name"), ("asc")⟩⟩) (fun _ _ => ("d")) =
      ⟨200, some ⟨false, ("text"), (""), ⟨("name"), ("asc")⟩⟩, []⟩ := by
  have h := checksum_request_behavior
    ⟨("/"), ⟨true, true, true, true, true, true, true, true⟩, fun _ => true⟩
    ("/api/resources/f") ("") ("") ("sha1") ⟨none, none⟩ (fun _ _ => ("d"))
    ⟨false, ("text"), ("abc"), ⟨("name"), ("asc")⟩⟩
    (by decide) (by decide) (by decide)
  simpa [textAdjust] using h
